import Mathlib

/-!
Verification of the AgentLite session/dispatch layer.

Shallow embedding of:
- `src/server/session_mgr/cmd_dispatch.py` (command router, `dispatch`)
- `src/server/session_mgr/session.py` (`Session.send_request`,
  `Session.resolve_response`, `Session.cleanup`)
- `src/server/session_mgr/session_mgr.py` (registry `disconnect`,
  `get_session_or_raise`)
- `src/server/tools/mc_builder.py` (`_run_async` cross-context bridge)
- `src/server/api_server/server_app.py` (`_task_exception_callback`,
  the dispatch-task wrapper in `websocket_endpoint`)
-/

namespace AgentLite

/-- A decoded JSON value, as produced by `json.loads`.  Numbers are modelled
as integers (the protocol only carries ids, coordinates and counts). -/
inductive JValue where
  | jnull
  | jbool (b : Bool)
  | jnum (n : Int)
  | jstr (s : String)
  | jarr (elems : List JValue)
  | jobj (fields : List (String × JValue))
deriving Repr

/-- A JSON object body: Python `dict[str, Any]` with its keys in insertion
order. -/
abbrev JObj := List (String × JValue)

/-- Python truthiness (`if not cmd`) of a decoded JSON value: `None`, `False`,
`0`, `""`, `[]` and `\x7b\x7d` are falsy, everything else truthy. -/
def truthy : JValue → Bool
  | .jnull => false
  | .jbool b => b
  | .jnum n => n != 0
  | .jstr s => s != ""
  | .jarr elems => !elems.isEmpty
  | .jobj fields => !fields.isEmpty

/-- Whether a decoded JSON value is hashable as a Python dict key: `list` and
`dict` values are unhashable, so `_CMD_HANDLERS.get(cmd)` raises `TypeError`
on them. -/
def hashable : JValue → Bool
  | .jarr _ => false
  | .jobj _ => false
  | _ => true

/-- Python `str()` rendering used by the f-string `"未知命令: ..."`.
`jarr`/`jobj` never reach this rendering in `dispatch`: the dict lookup
raises `TypeError` for unhashable keys first. -/
def pyStr : JValue → String
  | .jnull => "None"
  | .jbool b => if b then "True" else "False"
  | .jnum n => toString n
  | .jstr s => s
  | .jarr _ => ""
  | .jobj _ => ""

/-- An outbound response envelope, as serialised by `json.dumps` in
`cmd_dispatch.py`: `cmd` is whatever value the code puts there (the
unknown-command branch echoes the request `cmd` value verbatim),
`status` is `"ok"` or `"error"`, `params` a JSON object. -/
structure Envelope where
  cmd : JValue
  status : String
  params : JObj
deriving Repr

/-- Result of the decode phase of `dispatch` (the `try` block): either the
raw text parsed to a JSON object, or the `json.JSONDecodeError` /
`AttributeError` path (invalid JSON, or a JSON value that is not an object
and so has no `.get`). -/
inductive Decoded where
  | failure
  | obj (msg : JObj)
deriving Repr

/-- One observable step taken by `dispatch`: sending an envelope over the
session's websocket, invoking a registered handler with `(session, params)`,
or an exception escaping `dispatch` itself. -/
inductive DispatchEvent where
  | sendEnv (e : Envelope)
  | invoke (handler : Nat) (params : JValue)
  | raiseExc (msg : String)
deriving Repr

/-- Only a handler invocation can mutate session state; `send_text` writes to
the socket and touches no `Session` field. -/
def touchesSessionState : DispatchEvent → Bool
  | .invoke _ _ => true
  | _ => false

/-- Whether the event is an exception escaping `dispatch`. -/
def isRaise : DispatchEvent → Bool
  | .raiseExc _ => true
  | _ => false

/-- The handler table `_CMD_HANDLERS : dict[str, CmdHandler]`; handlers are
identified by opaque tokens (`Nat`).  Lookup is by string key only:
`dict.get` with a non-string key finds nothing among string keys. -/
def handlerGet (table : List (String × Nat)) : JValue → Option Nat
  | .jstr s => table.lookup s
  | _ => none

/-- The envelope sent on decode failure:
`cmd="error", status="error", reason="消息格式错误，需为 JSON"`. -/
def decodeErrorEnvelope : Envelope :=
  ⟨.jstr "error", "error", [("reason", .jstr "消息格式错误，需为 JSON")]⟩

/-- The envelope sent when `cmd` is missing or falsy:
`cmd="unknown", status="error", reason="缺少 cmd 字段"`. -/
def missingCmdEnvelope : Envelope :=
  ⟨.jstr "unknown", "error", [("reason", .jstr "缺少 cmd 字段")]⟩

/-- The envelope sent for an unregistered command: echoes the request's
truthy `cmd` value (`cmd or "unknown"` is `cmd` here) with reason
`"未知命令: <cmd>"`. -/
def unknownCmdEnvelope (cmd : JValue) : Envelope :=
  ⟨cmd, "error", [("reason", .jstr ("未知命令: " ++ pyStr cmd))]⟩

/-- `dispatch(session, raw)` of `cmd_dispatch.py`, after the decode phase:

* decode failure → send `decodeErrorEnvelope` and return;
* `cmd = msg.get("cmd")` falsy (absent, null, `""`, `0`, `false`, empty
  list/dict) → send `missingCmdEnvelope` and return;
* truthy but unhashable `cmd` → `_CMD_HANDLERS.get(cmd)` raises `TypeError`;
* registered `cmd` → `await handler(session, params)` with
  `params = msg.get("params", \x7b\x7d)`;
* otherwise → send `unknownCmdEnvelope cmd`. -/
def dispatch (table : List (String × Nat)) : Decoded → List DispatchEvent
  | .failure => [.sendEnv decodeErrorEnvelope]
  | .obj msg =>
    let cmd := (msg.lookup "cmd").getD .jnull
    let params := (msg.lookup "params").getD (.jobj [])
    cond (!truthy cmd) [.sendEnv missingCmdEnvelope]
      (cond (!hashable cmd) [.raiseExc "TypeError: unhashable type"]
        (match handlerGet table cmd with
          | some h => [.invoke h params]
          | none => [.sendEnv (unknownCmdEnvelope cmd)]))

example :
    dispatch [("ping", 0)] (.obj [("cmd", .jstr "ping")]) =
      [.invoke 0 (.jobj [])] := rfl

example :
    dispatch [("ping", 0)] (.obj [("cmd", .jstr "nope")]) =
      [.sendEnv ⟨.jstr "nope", "error", [("reason", .jstr "未知命令: nope")]⟩] := rfl

example : dispatch [("ping", 0)] .failure = [.sendEnv decodeErrorEnvelope] := rfl

example :
    dispatch [("ping", 0)] (.obj [("x", .jnum 1)]) = [.sendEnv missingCmdEnvelope] := rfl

/-! Session request/response correlation (`session.py`). -/

/-- The state of one `asyncio.Future` created by `Session.send_request`:
unresolved, resolved by `set_result(params)`, failed by
`set_exception(RuntimeError(...))` carrying the reply's reason, or
cancelled (`future.cancel()`). -/
inductive FutureState where
  | pendingF
  | resolvedOk (params : JObj)
  | resolvedError (reason : JValue)
  | cancelledF
deriving Repr

/-- `future.done()`: true in every state except still-pending. -/
def FutureState.done : FutureState → Bool
  | .pendingF => false
  | _ => true

/-- The request-correlation state of one `Session`.  `futures` is the heap of
every future object created by `send_request`, keyed by its `request_id`
(ids are fresh `uuid4().hex` values, so a key identifies one object);
`pendingIds` is the key set of the `_pending_requests` dict, which holds
references into that heap.  The suspended `send_request` coroutine keeps its
own reference to its future, so the object outlives its removal from the
dict. -/
structure SessionRS where
  futures : List (String × FutureState)
  pendingIds : List String
deriving Repr

/-- Overwrite the state of the heap future keyed `id` (a mutation of the
shared future object; the dict keys are unchanged). -/
def setFutureList (l : List (String × FutureState)) (id : String)
    (st : FutureState) : List (String × FutureState) :=
  l.map fun p => cond (p.1 == id) (p.1, st) p

/-- `setFutureList` lifted to the session state. -/
def setFuture (s : SessionRS) (id : String) (st : FutureState) : SessionRS :=
  { s with futures := setFutureList s.futures id st }

/-- `self._pending_requests.pop(request_id, None)`: removes the dict key; the
heap object survives. -/
def popPending (s : SessionRS) (id : String) : SessionRS :=
  { s with pendingIds := s.pendingIds.filter fun i => !(i == id) }

/-- The registration phase of `Session.send_request`: generate a fresh
`request_id`, `loop.create_future()`, and
`self._pending_requests[request_id] = future`. -/
def registerRequest (s : SessionRS) (id : String) : SessionRS :=
  { futures := (id, .pendingF) :: s.futures, pendingIds := id :: s.pendingIds }

/-- What a `send_request` call delivers to its caller when it resumes:
the reply's `params`, the `RuntimeError` built from the reply's reason, the
`TimeoutError` re-raised on deadline, or `CancelledError` after `cleanup`. -/
inductive RequestResult where
  | ok (params : JObj)
  | remoteError (reason : JValue)
  | timedOut
  | cancelledErr
deriving Repr

/-- The resumption phase of `Session.send_request`:
`result = await asyncio.wait_for(future, timeout)`, the
`except asyncio.TimeoutError` re-raise as `TimeoutError`, and the `finally`
block that pops `request_id` from `_pending_requests`.  The outcome is fixed
by the state the caller's own future object is in when the caller wakes:
resolved → that result; cancelled (by `cleanup`) → `CancelledError`; still
pending at the deadline → `wait_for` cancels the future and `TimeoutError`
is raised.  The `finally` pop runs in every case.  The `none` branch is
unreachable for a registered request (the coroutine holds the future it
just created) and conservatively mirrors the deadline path. -/
def awaitResult (s : SessionRS) (id : String) : SessionRS × RequestResult :=
  match s.futures.lookup id with
  | some (.resolvedOk p) => (popPending s id, .ok p)
  | some (.resolvedError r) => (popPending s id, .remoteError r)
  | some .cancelledF => (popPending s id, .cancelledErr)
  | some .pendingF => (popPending (setFuture s id .cancelledF) id, .timedOut)
  | none => (popPending s id, .timedOut)

/-- `Session.resolve_response(request_id, status, params)`:
`future = self._pending_requests.get(request_id)`; if absent or
`future.done()`, return `False` with no side effect; else
`future.set_result(params)` when `status == "ok"`, otherwise
`future.set_exception(RuntimeError(...))` carrying
`params.get("reason", status)`; return `True`.  Note the entry is not popped
here: the resumed `send_request` caller's `finally` removes it. -/
def resolve_response (s : SessionRS) (request_id : String) (status : String)
    (params : JObj) : SessionRS × Bool :=
  match cond (s.pendingIds.contains request_id)
      (s.futures.lookup request_id) none with
  | none => (s, false)
  | some f =>
    cond f.done (s, false)
      (cond (status == "ok")
        (setFuture s request_id (.resolvedOk params), true)
        (setFuture s request_id
          (.resolvedError ((params.lookup "reason").getD (.jstr status))), true))

/-- `Session.cleanup()`: `for future in self._pending_requests.values():
if not future.done(): future.cancel()`, then
`self._pending_requests.clear()`. -/
def cleanup (s : SessionRS) : SessionRS :=
  { futures := s.futures.map fun p =>
      cond (s.pendingIds.contains p.1 && !p.2.done) (p.1, .cancelledF) p,
    pendingIds := [] }

example :
    awaitResult (resolve_response (registerRequest ⟨[], []⟩ "r1") "r1" "ok"
      [("x", .jnum 1)]).1 "r1" =
      (⟨[("r1", .resolvedOk [("x", .jnum 1)])], []⟩, .ok [("x", .jnum 1)]) := rfl

example :
    (awaitResult (registerRequest ⟨[], []⟩ "r1") "r1").2 = .timedOut := rfl

example :
    resolve_response (awaitResult (registerRequest ⟨[], []⟩ "r1") "r1").1 "r1"
      "ok" [] = ((awaitResult (registerRequest ⟨[], []⟩ "r1") "r1").1, false) := rfl

example :
    cleanup ⟨[("a", .pendingF), ("b", .resolvedOk [])], ["a", "b"]⟩ =
      ⟨[("a", .cancelledF), ("b", .resolvedOk [])], []⟩ := rfl

/-! Session registry (`session_mgr.py`).  The module-level dict
`_sessions : dict[str, Session]` maps `session_id` to the session object;
sessions are modelled by opaque tokens (`Nat`).  All operations run under
`_lock`, so each is one atomic step on the map. -/

/-- `disconnect(session)`: `_sessions.pop(session.session_id, None)` — the
key is removed if present, and the call is a no-op (never a failure) when it
is absent. -/
def disconnectReg (reg : List (String × Nat)) (session_id : String) :
    List (String × Nat) :=
  reg.filter fun p => !(p.1 == session_id)

/-- `get_session_or_raise(session_id)`: `_sessions.get(session_id)` under the
lock, then `raise RuntimeError(...)` if it was `None`. -/
def get_session_or_raise (reg : List (String × Nat)) (session_id : String) :
    Except String Nat :=
  match reg.lookup session_id with
  | some session => .ok session
  | none => .error ("session \x27" ++ session_id ++ "\x27 不存在或已断开")

example :
    get_session_or_raise (disconnectReg [("s1", 5)] "s1") "s1" =
      .error "session \x27s1\x27 不存在或已断开" := rfl

/-! Cross-context bridge (`mc_builder.py`). -/

/-- The outcome of the work submitted through
`asyncio.run_coroutine_threadsafe` once it runs on the main loop: a value,
the bridge-level `future.result(timeout=...)` timeout, or an exception
raised by the coroutine and re-raised in the worker thread. -/
inductive CrossResult (A : Type) where
  | value (a : A)
  | crossTimeout
  | coroRaised (msg : String)
deriving Repr

/-- What `_run_async` does overall: raise
`RuntimeError("主线程事件循环未设置，请先调用 set_main_loop()")` without
submitting anything, or submit the coroutine to the main loop and block on
its result. -/
inductive BridgeOutcome (A : Type) where
  | loopUnsetError
  | submitted (r : CrossResult A)
deriving Repr

/-- `_run_async(coro, timeout=...)` of `mc_builder.py`: the `_main_loop`
module global is `None` until `set_main_loop` runs at startup; if it is still
`None` the call raises `RuntimeError` before any submission; otherwise the
coroutine is submitted with `run_coroutine_threadsafe` and the worker blocks
on `future.result(timeout)`. -/
def run_async {A : Type} (mainLoop : Option Nat) (result : CrossResult A) :
    BridgeOutcome A :=
  match mainLoop with
  | none => .loopUnsetError
  | some _ => .submitted result

/-! Dispatch-task wrapper (`server_app.py`).  `websocket_endpoint` wraps each
`dispatch(session, raw)` call in `asyncio.create_task` and attaches
`_task_exception_callback` as a done-callback; the callback only logs an
uncaught exception. -/

/-- How one handler invocation behaves: runs to completion having sent some
envelopes itself, or raises after sending some envelopes (the router wraps
the `await handler(...)` in no try/except, so the exception escapes
`dispatch`). -/
inductive HandlerOutcome where
  | completes (sent : List Envelope)
  | raises (sent : List Envelope) (excMsg : String)

/-- Interpret the events of one dispatch task: envelopes reach the client in
order; a handler that raises (or an exception out of `dispatch` itself) ends
the task, and `_task_exception_callback` then only writes the log line
`"后台 dispatch task 异常: ..."` — it sends nothing to the client. -/
def taskEffects (behavior : Nat → JValue → HandlerOutcome) :
    List DispatchEvent → List Envelope × List String
  | [] => ([], [])
  | .sendEnv e :: rest =>
    let r := taskEffects behavior rest
    (e :: r.1, r.2)
  | .invoke h p :: rest =>
    match behavior h p with
    | .completes sent =>
      let r := taskEffects behavior rest
      (sent ++ r.1, r.2)
    | .raises sent m => (sent, ["后台 dispatch task 异常: " ++ m])
  | .raiseExc m :: _ => ([], ["后台 dispatch task 异常: " ++ m])

/-- One whole dispatch task as observed from outside: the envelopes the
client receives and the log lines produced, for a given handler table,
handler behaviour and decoded inbound message. -/
def runDispatchTask (table : List (String × Nat))
    (behavior : Nat → JValue → HandlerOutcome) (d : Decoded) :
    List Envelope × List String :=
  taskEffects behavior (dispatch table d)

/-- A one-command table whose handler models `_handle_chat` with a failing
agent backend. -/
def chatTable : List (String × Nat) := [("chat", 0)]

/-- A handler behaviour that raises before sending anything, e.g. an
exception out of the agent executor inside `_handle_chat`. -/
def raisingBehavior : Nat → JValue → HandlerOutcome :=
  fun _ _ => .raises [] "RuntimeError: agent backend failed"

/-! Helper lemmas about association-list lookup under the map/filter
operations the embedding uses. -/

/-- After filtering out a key, `contains` no longer finds it. -/
theorem contains_filter_beq_ne (id : String) :
    ∀ l : List String, ((l.filter fun i => !(i == id)).contains id) = false := by
  intro l
  induction l with
  | nil => rfl
  | cons i t ih =>
    by_cases h : i = id
    · subst h; simp [List.filter, ih]
    · have h1 : (i == id) = false := beq_eq_false_iff_ne.mpr h
      simp [List.filter, h1, ih, Ne.symm h]

/-- If a key is present, `setFutureList` rewrites the entry found by lookup
to the new state. -/
theorem lookup_setFutureList (id : String) (st : FutureState) :
    ∀ (l : List (String × FutureState)) (f : FutureState),
      l.lookup id = some f → (setFutureList l id st).lookup id = some st := by
  intro l
  induction l with
  | nil => intro f h; simp [List.lookup] at h
  | cons p t ih =>
    obtain ⟨k, v⟩ := p
    intro f h
    by_cases hk : id = k
    · subst hk
      simp [setFutureList, List.lookup]
    · have h1 : (id == k) = false := beq_eq_false_iff_ne.mpr hk
      have h2 : (k == id) = false := beq_eq_false_iff_ne.mpr (Ne.symm hk)
      simp only [List.lookup, h1] at h
      simp only [setFutureList, List.map, h2, cond_false, List.lookup, h1]
      exact ih f h

/-- `setFutureList` leaves the key set alone, so lookup of a different or
untouched key still sees the list through `map`; what `cleanup`'s map does to
the entry a lookup finds. -/
theorem lookup_cleanup_map (ids : List String) :
    ∀ (l : List (String × FutureState)) (id : String) (f : FutureState),
      l.lookup id = some f →
      ((l.map fun p =>
          cond (ids.contains p.1 && !p.2.done) (p.1, FutureState.cancelledF) p).lookup
        id) = some (cond (ids.contains id && !f.done) .cancelledF f) := by
  intro l
  induction l with
  | nil => intro id f h; simp [List.lookup] at h
  | cons p t ih =>
    obtain ⟨k, v⟩ := p
    intro id f h
    by_cases hk : id = k
    · subst hk
      simp only [List.lookup, beq_self_eq_true] at h
      cases h
      cases hc : (ids.contains id && !v.done) <;>
        · simp only [List.map, hc, cond_false, cond_true, List.lookup,
            beq_self_eq_true]
    · have h1 : (id == k) = false := beq_eq_false_iff_ne.mpr hk
      simp only [List.lookup, h1] at h
      cases hc : (ids.contains k && !v.done) <;>
        · simp only [List.map, hc, cond_false, cond_true, List.lookup, h1]
          exact ih id f h

/-- After `disconnect`, lookup of the removed session id finds nothing. -/
theorem lookup_disconnectReg (sid : String) :
    ∀ reg : List (String × Nat), (disconnectReg reg sid).lookup sid = none := by
  intro reg
  induction reg with
  | nil => rfl
  | cons p t ih =>
    obtain ⟨k, v⟩ := p
    by_cases h : k = sid
    · subst h; simpa [disconnectReg, List.filter] using ih
    · have h1 : (k == sid) = false := beq_eq_false_iff_ne.mpr h
      have h2 : (sid == k) = false := beq_eq_false_iff_ne.mpr (Ne.symm h)
      simp only [disconnectReg, List.filter, h1, Bool.not_false] at *
      simpa [List.lookup, h2] using ih

/-- Removing a session id twice is the same as removing it once. -/
theorem disconnectReg_idem (reg : List (String × Nat)) (sid : String) :
    disconnectReg (disconnectReg reg sid) sid = disconnectReg reg sid := by
  induction reg with
  | nil => rfl
  | cons p t ih =>
    simp only [disconnectReg] at ih ⊢
    cases hp : (!(p.1 == sid))
    · simp only [List.filter, hp]
      exact ih
    · simp only [List.filter, hp]
      rw [ih]

/-! Claim theorems. -/

/-- C1: for every inbound text that decodes to an envelope with a non-empty
`cmd` field, `dispatch` invokes exactly the handler registered for that `cmd`
with `(session, params)`; if no handler is registered for that `cmd`,
`dispatch` instead sends exactly one error envelope echoing the requested
`cmd` with the unknown-command reason, and invokes no handler. -/
theorem c1_dispatch_routes_registered_cmd
    (table : List (String × Nat)) (msg : JObj) (s : String)
    (hcmd : msg.lookup "cmd" = some (.jstr s)) (hne : s ≠ "") :
    (∀ h, table.lookup s = some h →
      dispatch table (.obj msg) =
        [.invoke h ((msg.lookup "params").getD (.jobj []))])
    ∧ (table.lookup s = none →
      dispatch table (.obj msg) =
        [.sendEnv ⟨.jstr s, "error",
          [("reason", .jstr ("未知命令: " ++ s))]⟩]) := by
  have hne' : (s == "") = false := beq_eq_false_iff_ne.mpr hne
  constructor
  · intro h hh
    simp [dispatch, hcmd, truthy, hashable, handlerGet, bne, hne', hh]
  · intro hn
    simp [dispatch, hcmd, truthy, hashable, handlerGet, bne, hne', hn,
      unknownCmdEnvelope, pyStr]

/-- Witness for C1: the built-in `ping` handler is routed to when registered,
and the same message on an empty table yields exactly the unknown-command
error envelope. -/
theorem c1_dispatch_routes_registered_cmd_witness :
    ([("cmd", JValue.jstr "ping")] : JObj).lookup "cmd" = some (.jstr "ping")
    ∧ "ping" ≠ ""
    ∧ dispatch [("ping", 0)] (.obj [("cmd", .jstr "ping")]) =
        [.invoke 0 (.jobj [])]
    ∧ dispatch [] (.obj [("cmd", .jstr "ping")]) =
        [.sendEnv ⟨.jstr "ping", "error",
          [("reason", .jstr "未知命令: ping")]⟩] :=
  ⟨rfl, by decide,
    (c1_dispatch_routes_registered_cmd [("ping", 0)] [("cmd", .jstr "ping")]
      "ping" rfl (by decide)).1 0 rfl,
    (c1_dispatch_routes_registered_cmd [] [("cmd", .jstr "ping")]
      "ping" rfl (by decide)).2 rfl⟩

/-- C7: for every raw input that is not decodable as a structured message,
`dispatch` sends exactly one error envelope with `cmd = "error"` and a
human-readable reason, raises nothing, and performs no session-state-touching
step, so subsequent valid messages are still processed. -/
theorem c7_dispatch_decode_failure (table : List (String × Nat)) :
    dispatch table .failure = [.sendEnv decodeErrorEnvelope]
    ∧ decodeErrorEnvelope.cmd = .jstr "error"
    ∧ decodeErrorEnvelope.status = "error"
    ∧ ∀ e ∈ dispatch table .failure,
        touchesSessionState e = false ∧ isRaise e = false := by
  refine ⟨rfl, rfl, rfl, ?_⟩
  intro e he
  simp only [dispatch, List.mem_singleton] at he
  subst he
  exact ⟨rfl, rfl⟩

/-- C10: for every decodable JSON-object envelope whose `cmd` value is falsy
(absent, null, `""`, `0`, `false`, or an empty container), `dispatch` takes
the missing-cmd branch and sends the error envelope with `cmd = "unknown"`
without consulting the handler table, so no handler — in particular one
registered under a falsy-equivalent name such as `""` — is ever invoked. -/
theorem c10_dispatch_falsy_cmd
    (table : List (String × Nat)) (msg : JObj)
    (hfalsy : truthy ((msg.lookup "cmd").getD .jnull) = false) :
    dispatch table (.obj msg) = [.sendEnv missingCmdEnvelope]
    ∧ ∀ h p, DispatchEvent.invoke h p ∉ dispatch table (.obj msg) := by
  have hd : dispatch table (.obj msg) = [.sendEnv missingCmdEnvelope] := by
    simp [dispatch, hfalsy]
  refine ⟨hd, ?_⟩
  intro h p hmem
  rw [hd] at hmem
  simp at hmem

/-- Witness for C10: a handler registered under `""` is never reached; the
missing-cmd error envelope is sent instead. -/
theorem c10_dispatch_falsy_cmd_witness :
    truthy ((([("cmd", JValue.jstr "")] : JObj).lookup "cmd").getD .jnull) = false
    ∧ dispatch [("", 7)] (.obj [("cmd", .jstr "")]) =
        [.sendEnv missingCmdEnvelope] :=
  ⟨rfl, (c10_dispatch_falsy_cmd [("", 7)] [("cmd", .jstr "")] rfl).1⟩

/-- Unfolding `awaitResult` once the state of the caller's future object is
known. -/
theorem awaitResult_of_lookup (s : SessionRS) (id : String) (f : FutureState)
    (h : s.futures.lookup id = some f) :
    awaitResult s id =
      (match f with
        | .resolvedOk p => (popPending s id, .ok p)
        | .resolvedError r => (popPending s id, .remoteError r)
        | .cancelledF => (popPending s id, .cancelledErr)
        | .pendingF =>
          (popPending (setFuture s id .cancelledF) id, .timedOut)) := by
  cases f <;> simp [awaitResult, h]

/-- Unfolding `resolve_response` right after registration: the fresh entry is
pending, so the reply is published into the future and `True` is returned. -/
theorem resolve_after_register (s : SessionRS) (id status : String)
    (params : JObj) :
    resolve_response (registerRequest s id) id status params =
      cond (status == "ok")
        (setFuture (registerRequest s id) id (.resolvedOk params), true)
        (setFuture (registerRequest s id) id
          (.resolvedError ((params.lookup "reason").getD (.jstr status))),
          true) := by
  simp [resolve_response, registerRequest, FutureState.done, List.lookup]

/-- C2: a `send_request` whose matching reply is delivered by
`resolve_response` with status `"ok"` before the deadline returns exactly the
reply's `params`, unchanged; a matching reply with any other status makes the
call fail with the remote-error `RuntimeError` carrying the reply's reason
(`params.get("reason", status)`). -/
theorem c2_send_request_resolved
    (s : SessionRS) (id : String) (params : JObj)
    (hfresh : s.futures.lookup id = none) :
    ((resolve_response (registerRequest s id) id "ok" params).2 = true
      ∧ (awaitResult
          (resolve_response (registerRequest s id) id "ok" params).1 id).2
          = .ok params)
    ∧ ∀ status, status ≠ "ok" →
        ((resolve_response (registerRequest s id) id status params).2 = true
          ∧ (awaitResult
              (resolve_response (registerRequest s id) id status params).1
              id).2
            = .remoteError ((params.lookup "reason").getD (.jstr status))) := by
  constructor
  · rw [resolve_after_register]
    refine ⟨rfl, ?_⟩
    simp [awaitResult, setFuture, setFutureList, registerRequest, List.lookup]
  · intro status hst
    have hst' : (status == "ok") = false := beq_eq_false_iff_ne.mpr hst
    rw [resolve_after_register, hst']
    refine ⟨rfl, ?_⟩
    simp [awaitResult, setFuture, setFutureList, registerRequest, List.lookup]

/-- Witness for C2 on an empty session: an `"ok"` reply hands back the
reply's `params`; an `"error"` reply with a reason produces the remote
error carrying it. -/
theorem c2_send_request_resolved_witness :
    (([] : List (String × FutureState)).lookup "r1" = none)
    ∧ (awaitResult
        (resolve_response (registerRequest ⟨[], []⟩ "r1") "r1" "ok"
          [("x", .jnum 1)]).1 "r1").2 = .ok [("x", .jnum 1)]
    ∧ (awaitResult
        (resolve_response (registerRequest ⟨[], []⟩ "r1") "r1" "error"
          [("reason", .jstr "bad")]).1 "r1").2 = .remoteError (.jstr "bad") :=
  ⟨rfl,
    (c2_send_request_resolved ⟨[], []⟩ "r1" [("x", .jnum 1)] rfl).1.2,
    by
      have h := (c2_send_request_resolved ⟨[], []⟩ "r1"
        [("reason", .jstr "bad")] rfl).2 "error" (by decide)
      simpa using h.2⟩

/-- C3: a `send_request` with no matching reply before the deadline fails
with the timeout condition, its pending entry is removed by the `finally`
block, and any later `resolve_response` with the same id returns `False` and
changes nothing. -/
theorem c3_send_request_timeout
    (s : SessionRS) (id : String) (hfresh : s.futures.lookup id = none) :
    (awaitResult (registerRequest s id) id).2 = .timedOut
    ∧ ((awaitResult (registerRequest s id) id).1.pendingIds.contains id)
        = false
    ∧ ∀ status params,
        resolve_response (awaitResult (registerRequest s id) id).1 id status
          params = ((awaitResult (registerRequest s id) id).1, false) := by
  have hrun : awaitResult (registerRequest s id) id =
      (popPending (setFuture (registerRequest s id) id .cancelledF) id,
        .timedOut) := by
    simp [awaitResult, registerRequest, List.lookup]
  have hcont :
      ((awaitResult (registerRequest s id) id).1.pendingIds.contains id)
        = false := by
    rw [hrun]
    exact contains_filter_beq_ne id _
  refine ⟨by rw [hrun], hcont, ?_⟩
  intro status params
  simp only [resolve_response, hcont, cond_false]

/-- Witness for C3 on an empty session: timeout, entry gone, stray late
reply matched to nothing. -/
theorem c3_send_request_timeout_witness :
    (([] : List (String × FutureState)).lookup "r1" = none)
    ∧ (awaitResult (registerRequest ⟨[], []⟩ "r1") "r1").2 = .timedOut
    ∧ resolve_response (awaitResult (registerRequest ⟨[], []⟩ "r1") "r1").1
        "r1" "ok" [] =
        ((awaitResult (registerRequest ⟨[], []⟩ "r1") "r1").1, false) :=
  ⟨rfl, (c3_send_request_timeout ⟨[], []⟩ "r1" rfl).1,
    (c3_send_request_timeout ⟨[], []⟩ "r1" rfl).2.2 "ok" []⟩

/-- C4: `resolve_response` returns `False` and leaves the session unchanged
when the id is absent from the pending map or its future is already
terminal; otherwise it publishes `RESOLVED_OK`/`RESOLVED_ERROR` into the
future, returns `True`, and the resumed `send_request` caller receives that
result and removes the entry from the pending map. -/
theorem c4_resolve_response_contract
    (s : SessionRS) (id status : String) (params : JObj) (f : FutureState) :
    (s.pendingIds.contains id = false →
      resolve_response s id status params = (s, false))
    ∧ (s.futures.lookup id = some f → f.done = true →
      resolve_response s id status params = (s, false))
    ∧ (s.pendingIds.contains id = true → s.futures.lookup id = some f →
        f.done = false →
      (resolve_response s id status params).2 = true
      ∧ (resolve_response s id status params).1.futures.lookup id =
          some (cond (status == "ok") (.resolvedOk params)
            (.resolvedError ((params.lookup "reason").getD (.jstr status))))
      ∧ ((awaitResult (resolve_response s id status params).1
            id).1.pendingIds.contains id) = false
      ∧ (awaitResult (resolve_response s id status params).1 id).2 =
          cond (status == "ok") (.ok params)
            (.remoteError ((params.lookup "reason").getD (.jstr status)))) := by
  refine ⟨?_, ?_, ?_⟩
  · intro hc
    simp only [resolve_response, hc, cond_false]
  · intro hl hdone
    cases hc : s.pendingIds.contains id
    · simp only [resolve_response, hc, cond_false]
    · simp only [resolve_response, hc, cond_true, hl, hdone]
  · intro hc hl hdone
    have hres : resolve_response s id status params =
        cond (status == "ok")
          (setFuture s id (.resolvedOk params), true)
          (setFuture s id
            (.resolvedError ((params.lookup "reason").getD (.jstr status))),
            true) := by
      simp only [resolve_response, hc, cond_true, hl, hdone, cond_false]
    cases hs : (status == "ok")
    · rw [hres, hs]
      simp only [cond_false]
      have hlook : (setFuture s id
          (.resolvedError
            ((params.lookup "reason").getD (.jstr status)))).futures.lookup id
          = some (.resolvedError
              ((params.lookup "reason").getD (.jstr status))) := by
        simpa [setFuture] using
          lookup_setFutureList id
            (.resolvedError ((params.lookup "reason").getD (.jstr status)))
            s.futures f hl
      refine ⟨by trivial, hlook, ?_, ?_⟩
      · rw [awaitResult_of_lookup _ _ _ hlook]
        exact contains_filter_beq_ne id _
      · rw [awaitResult_of_lookup _ _ _ hlook]
    · rw [hres, hs]
      simp only [cond_true]
      have hlook : (setFuture s id (.resolvedOk params)).futures.lookup id
          = some (.resolvedOk params) := by
        simpa [setFuture] using
          lookup_setFutureList id (.resolvedOk params) s.futures f hl
      refine ⟨by trivial, hlook, ?_, ?_⟩
      · rw [awaitResult_of_lookup _ _ _ hlook]
        exact contains_filter_beq_ne id _
      · rw [awaitResult_of_lookup _ _ _ hlook]

/-- Witness for C4: a stray reply on an empty session is rejected with no
state change; a duplicate reply to an already-resolved future is rejected;
a first reply is published, delivered, and its entry removed. -/
theorem c4_resolve_response_contract_witness :
    (resolve_response ⟨[], []⟩ "r1" "ok" [] = (⟨[], []⟩, false))
    ∧ (resolve_response ⟨[("r1", .resolvedOk [])], ["r1"]⟩ "r1" "ok" []
        = (⟨[("r1", .resolvedOk [])], ["r1"]⟩, false))
    ∧ (resolve_response ⟨[("r1", .pendingF)], ["r1"]⟩ "r1" "ok"
        [("y", .jnum 2)]).2 = true
    ∧ (awaitResult
        (resolve_response ⟨[("r1", .pendingF)], ["r1"]⟩ "r1" "ok"
          [("y", .jnum 2)]).1 "r1").2 = .ok [("y", .jnum 2)] :=
  ⟨(c4_resolve_response_contract ⟨[], []⟩ "r1" "ok" [] .pendingF).1 rfl,
    (c4_resolve_response_contract ⟨[("r1", .resolvedOk [])], ["r1"]⟩ "r1"
      "ok" [] (.resolvedOk [])).2.1 rfl rfl,
    ((c4_resolve_response_contract ⟨[("r1", .pendingF)], ["r1"]⟩ "r1" "ok"
      [("y", .jnum 2)] .pendingF).2.2 rfl rfl rfl).1,
    by
      have h := ((c4_resolve_response_contract ⟨[("r1", .pendingF)], ["r1"]⟩
        "r1" "ok" [("y", .jnum 2)] .pendingF).2.2 rfl rfl rfl).2.2.2
      simpa using h⟩

/-- C5: `cleanup` empties the pending map, force-cancels every entry whose
future is not yet terminal — so every suspended `send_request` caller on the
session resumes with the cancellation condition instead of hanging — and
leaves already-terminal futures untouched. -/
theorem c5_cleanup_cancels_pending (s : SessionRS) :
    (cleanup s).pendingIds = []
    ∧ (∀ id f, s.pendingIds.contains id = true →
        s.futures.lookup id = some f → f.done = false →
        (cleanup s).futures.lookup id = some .cancelledF
        ∧ (awaitResult (cleanup s) id).2 = .cancelledErr)
    ∧ (∀ id f, s.futures.lookup id = some f → f.done = true →
        (cleanup s).futures.lookup id = some f) := by
  refine ⟨rfl, ?_, ?_⟩
  · intro id f hc hl hdone
    have hlook := lookup_cleanup_map s.pendingIds s.futures id f hl
    rw [hc, hdone] at hlook
    simp only [Bool.not_false, Bool.and_true, cond_true] at hlook
    have hlook' : (cleanup s).futures.lookup id = some .cancelledF := by
      simpa [cleanup] using hlook
    exact ⟨hlook', by simp [awaitResult, hlook']⟩
  · intro id f hl hdone
    have hlook := lookup_cleanup_map s.pendingIds s.futures id f hl
    rw [hdone] at hlook
    simp only [Bool.not_true, Bool.and_false, cond_false] at hlook
    simpa [cleanup] using hlook

/-- Witness for C5: one pending and one already-resolved entry; the pending
one is cancelled and its caller resumes with the cancellation condition, the
resolved one keeps its result, the map ends empty. -/
theorem c5_cleanup_cancels_pending_witness :
    (cleanup ⟨[("a", .pendingF), ("b", .resolvedOk [])], ["a", "b"]⟩).pendingIds
      = []
    ∧ (cleanup
        ⟨[("a", .pendingF), ("b", .resolvedOk [])], ["a", "b"]⟩).futures.lookup
        "a" = some .cancelledF
    ∧ (awaitResult
        (cleanup ⟨[("a", .pendingF), ("b", .resolvedOk [])], ["a", "b"]⟩)
        "a").2 = .cancelledErr
    ∧ (cleanup
        ⟨[("a", .pendingF), ("b", .resolvedOk [])], ["a", "b"]⟩).futures.lookup
        "b" = some (.resolvedOk []) :=
  ⟨(c5_cleanup_cancels_pending
      ⟨[("a", .pendingF), ("b", .resolvedOk [])], ["a", "b"]⟩).1,
    ((c5_cleanup_cancels_pending
      ⟨[("a", .pendingF), ("b", .resolvedOk [])], ["a", "b"]⟩).2.1 "a"
      .pendingF rfl rfl rfl).1,
    ((c5_cleanup_cancels_pending
      ⟨[("a", .pendingF), ("b", .resolvedOk [])], ["a", "b"]⟩).2.1 "a"
      .pendingF rfl rfl rfl).2,
    (c5_cleanup_cancels_pending
      ⟨[("a", .pendingF), ("b", .resolvedOk [])], ["a", "b"]⟩).2.2 "b"
      (.resolvedOk []) rfl rfl⟩

/-- C6 (claim refuted by the code): when the handler for a dispatched
message raises, the dispatch-task wrapper of `server_app.py` does NOT
convert the failure into an error envelope — `_task_exception_callback`
only logs it.  Evaluated at a concrete failing input: a `"chat"` message
whose handler raises; the client receives no envelope at all, only the
server log records the failure. -/
theorem c6_handler_failure_only_logged :
    runDispatchTask chatTable raisingBehavior (.obj [("cmd", .jstr "chat")]) =
      ([], ["后台 dispatch task 异常: RuntimeError: agent backend failed"]) :=
  rfl

/-- Witness for C7 at a concrete table: the decode-failure envelope is the
only event, and it neither touches session state nor raises. -/
theorem c7_dispatch_decode_failure_witness :
    dispatch [("ping", 0)] .failure = [.sendEnv decodeErrorEnvelope]
    ∧ DispatchEvent.sendEnv decodeErrorEnvelope ∈ dispatch [("ping", 0)] .failure
    ∧ touchesSessionState (.sendEnv decodeErrorEnvelope) = false
    ∧ isRaise (.sendEnv decodeErrorEnvelope) = false :=
  ⟨(c7_dispatch_decode_failure [("ping", 0)]).1,
    by simp [dispatch],
    ((c7_dispatch_decode_failure [("ping", 0)]).2.2.2
      (.sendEnv decodeErrorEnvelope) (by simp [dispatch])).1,
    ((c7_dispatch_decode_failure [("ping", 0)]).2.2.2
      (.sendEnv decodeErrorEnvelope) (by simp [dispatch])).2⟩

/-- C8: after `disconnect`, `get_session_or_raise` on that id fails with the
not-found `RuntimeError`; a second `disconnect` of the same id is a no-op
(idempotent, never a failure). -/
theorem c8_disconnect_removes_session
    (reg : List (String × Nat)) (sid : String) :
    get_session_or_raise (disconnectReg reg sid) sid =
      .error ("session \x27" ++ sid ++ "\x27 不存在或已断开")
    ∧ disconnectReg (disconnectReg reg sid) sid = disconnectReg reg sid := by
  constructor
  · simp [get_session_or_raise, lookup_disconnectReg sid reg]
  · exact disconnectReg_idem reg sid

/-- C9: submitting loop-owned work through `_run_async` before
`set_main_loop` has installed the owning loop raises the fail-fast
`RuntimeError`; nothing is ever submitted in that situation. -/
theorem c9_bridge_fails_fast (r : CrossResult Nat) :
    run_async none r = .loopUnsetError
    ∧ ∀ x, run_async none r ≠ BridgeOutcome.submitted x := by
  refine ⟨rfl, ?_⟩
  intro x h
  simp [run_async] at h

/-- Witness for C9 at a concrete submitted-work outcome: the bridge raises
the fail-fast configuration error and does not submit. -/
theorem c9_bridge_fails_fast_witness :
    run_async none (CrossResult.value 42) = .loopUnsetError
    ∧ run_async none (CrossResult.value 42) ≠
        BridgeOutcome.submitted (.value 42) :=
  ⟨(c9_bridge_fails_fast (.value 42)).1,
    (c9_bridge_fails_fast (.value 42)).2 (.value 42)⟩

end AgentLite
